import Mathlib

/-!
# Verification of `serial/baud-switcher.c` (neopo)

A shallow embedding of the program `baud-switcher`, which sets a custom baud
rate on a serial device through the `TCGETS2` / `TCSETS2` requests, together
with theorems about its observable behaviour.

The program is a single `main`.  Everything it does to the outside world goes
through the C library: `open`, `ioctl`, `close`, `printf`, `perror`, `atoi`.
The operating system is modelled as an arbitrary deterministic state machine
(`Host`) answering these calls; the process (`Proc`) carries the host state,
`errno`, the two output streams and the trace of device operations.

Machine integers are `Nat` / `Int` with explicit wrap-around.  Strings are
`List Char` (C strings: the characters before the terminating NUL).
-/

namespace BaudSwitcher

/-! ## Constants of the system headers -/

/-- Modelled from the spec: the header constant `CBAUD`, the baud-rate selector
mask of `c_cflag`, absent from the sources (`<asm-generic/termbits.h>`, Linux
value `0o10017`). -/
def CBAUD : Nat := 0o010017

/-- Modelled from the spec: the header constant `BOTHER`, the custom-rate bit of
`c_cflag` (use the numeric speed fields), absent from the sources
(`<asm-generic/termbits.h>`, Linux value `0o10000`). -/
def BOTHER : Nat := 0o010000

/-- Modelled from the spec: the header constant `O_RDONLY`, the read-only access
mode of `open`, absent from the sources (`<fcntl.h>`). -/
def O_RDONLY : Nat := 0

/-- Modelled from the spec: the error number `EINTR` of `<errno.h>`, "Interrupted
system call". -/
def EINTR : Int := 4

/-- Modelled from the spec: the error number `EBADF` of `<errno.h>`, "Bad file
descriptor". -/
def EBADF : Int := 9

/-- Modelled from the spec: the error number `ENOTTY` of `<errno.h>`,
"Inappropriate ioctl for device". -/
def ENOTTY : Int := 25

/-- Modelled from the spec: the largest value of `long` (`<limits.h>`, LP64). -/
def LONG_MAX : Int := 2 ^ 63 - 1

/-- Modelled from the spec: the smallest value of `long` (`<limits.h>`, LP64). -/
def LONG_MIN : Int := -(2 ^ 63)

/-! ## Integer conversions of C -/

/-- Bitwise complement `~x` of an `int`. -/
def int_not (x : Int) : Int := -x - 1

/-- Conversion of an `int` to `unsigned int` (reduction modulo `2 ^ 32`). -/
def toUnsigned (i : Int) : Nat := (i % 2 ^ 32).toNat

/-- Conversion of a `long` to `int` (wrap-around to 32 bits, two's complement). -/
def toInt32 (i : Int) : Int := (i + 2 ^ 31) % 2 ^ 32 - 2 ^ 31

/-! ## The settings record -/

/-- Modelled from the spec: the serial line settings record `struct termios2`,
declared in `<asm-generic/termbits.h>` and absent from the sources: four flag
words (`tcflag_t`, 32 bits), the line discipline, the control characters and
the two speeds (`speed_t`, 32 bits). -/
structure termios2 where
  c_iflag : Nat
  c_oflag : Nat
  c_cflag : Nat
  c_lflag : Nat
  c_line : Nat
  c_cc : List Nat
  c_ispeed : Nat
  c_ospeed : Nat
  deriving DecidableEq

/-! ## The operating system -/

/-- One device operation as the process issues it.  The query also records
the record the host wrote into the caller's buffer, when it wrote one. -/
inductive Syscall where
  | sys_open (path : List Char) (flags : Nat)
  | ioctl_TCGETS2 (fd : Int) (out : Option termios2)
  | ioctl_TCSETS2 (fd : Int) (arg : termios2)
  | sys_close (fd : Int)
  deriving DecidableEq

/-- An entry of the trace: the operation and the value it returned. -/
structure Event where
  call : Syscall
  ret : Int
  deriving DecidableEq

/-- The answer of the host to one call: the return value and the value stored
into `errno`, if the call stores one. -/
structure Reply where
  ret : Int
  err : Option Int
  deriving DecidableEq

/-- Modelled from the spec: the collaborator of the program, the terminal
subsystem of the operating system, which is no part of the sources.  It is an
arbitrary state machine over `σ` answering the four device operations, with
the message table of `strerror`. -/
structure Host (σ : Type) where
  sys_open : σ → List Char → Nat → Reply × σ
  tcgets2 : σ → Int → (Reply × Option termios2) × σ
  tcsets2 : σ → Int → termios2 → Reply × σ
  sys_close : σ → Int → Reply × σ
  strerror : Int → List Char

/-- The state of the running process. -/
structure Proc (σ : Type) where
  host : σ
  errno : Int
  trace : List Event
  stdout : List Char
  stderr : List Char

/-- The process at program start: nothing printed, no device operation issued. -/
def Proc.init {σ : Type} (k : σ) : Proc σ :=
  { host := k, errno := 0, trace := [], stdout := [], stderr := [] }

/-! ## The C library calls used by `main` -/

/-- Call `open(path, flags)`: returns the handle (or `-1`). -/
def c_open {σ : Type} (H : Host σ) (path : List Char) (flags : Nat) (p : Proc σ) :
    Int × Proc σ :=
  let a := H.sys_open p.host path flags
  (a.1.ret,
   { p with host := a.2, errno := a.1.err.getD p.errno,
            trace := p.trace ++ [⟨Syscall.sys_open path flags, a.1.ret⟩] })

/-- Call `ioctl(fd, TCGETS2, &tio)`: returns the result and the contents of the
buffer afterwards (unchanged when the host wrote nothing). -/
def ioctl_TCGETS2 {σ : Type} (H : Host σ) (fd : Int) (tio : termios2) (p : Proc σ) :
    (Int × termios2) × Proc σ :=
  let a := H.tcgets2 p.host fd
  ((a.1.1.ret, a.1.2.getD tio),
   { p with host := a.2, errno := a.1.1.err.getD p.errno,
            trace := p.trace ++ [⟨Syscall.ioctl_TCGETS2 fd a.1.2, a.1.1.ret⟩] })

/-- Call `ioctl(fd, TCSETS2, &tio)`. -/
def ioctl_TCSETS2 {σ : Type} (H : Host σ) (fd : Int) (tio : termios2) (p : Proc σ) :
    Int × Proc σ :=
  let a := H.tcsets2 p.host fd tio
  (a.1.ret,
   { p with host := a.2, errno := a.1.err.getD p.errno,
            trace := p.trace ++ [⟨Syscall.ioctl_TCSETS2 fd tio, a.1.ret⟩] })

/-- Call `close(fd)`. -/
def c_close {σ : Type} (H : Host σ) (fd : Int) (p : Proc σ) : Int × Proc σ :=
  let a := H.sys_close p.host fd
  (a.1.ret,
   { p with host := a.2, errno := a.1.err.getD p.errno,
            trace := p.trace ++ [⟨Syscall.sys_close fd, a.1.ret⟩] })

/-- Append text to standard output. -/
def c_printf {σ : Type} (text : List Char) (p : Proc σ) : Proc σ :=
  { p with stdout := p.stdout ++ text }

/-- Modelled from the spec: the C library call `perror(label)`, absent from the
sources: writes the label, a colon and a blank, the message of the current
`errno`, and a newline to standard error. -/
def perror {σ : Type} (H : Host σ) (label : List Char) (p : Proc σ) : Proc σ :=
  { p with stderr := p.stderr ++ (label ++ ": ".toList ++ H.strerror p.errno ++ "\n".toList) }

/-- Modelled from the spec: the C library class `isspace` in the C locale:
blank, and `\t \n \v \f \r`. -/
def isspace (c : Char) : Bool := c.toNat = 32 || (9 ≤ c.toNat && c.toNat ≤ 13)

/-- Modelled from the spec: the C library class `isdigit`: the characters `0`
to `9`. -/
def isdigit (c : Char) : Bool := 48 ≤ c.toNat && c.toNat ≤ 57

/-- Modelled from the spec: first step of `strtol`, skip the leading white
space of a string. -/
def skip_space : List Char → List Char
  | [] => []
  | c :: cs => if isspace c then skip_space cs else c :: cs

/-- Modelled from the spec: digit scan of `strtol`, accumulate the leading
decimal digits of a string onto `acc` and stop at the first other character. -/
def strtol_digits (acc : Nat) : List Char → Nat
  | [] => acc
  | c :: cs => if isdigit c then strtol_digits (acc * 10 + (c.toNat - 48)) cs else acc

/-- Modelled from the spec: the C library call `strtol(s, NULL, 10)`, absent from
the sources: white space, an optional sign, decimal digits; no digits give `0`;
values out of range saturate. -/
def strtol (s : List Char) : Int :=
  match skip_space s with
  | [] => 0
  | c :: r =>
    if c = '-' then max LONG_MIN (-(strtol_digits 0 r : Int))
    else if c = '+' then min LONG_MAX (strtol_digits 0 r : Int)
    else min LONG_MAX (strtol_digits 0 (c :: r) : Int)

/-- Modelled from the spec: the C library call `atoi(s)`, absent from the sources,
the permissive parse of the rate (zero on garbage): `(int) strtol(s, NULL, 10)`. -/
def atoi (s : List Char) : Int := toInt32 (strtol s)

/-- Modelled from the spec: the conversion `%d` of the C library call `printf`,
absent from the sources: the decimal digits, with a minus sign first for a
negative value. -/
def fmt_d (i : Int) : List Char :=
  if i < 0 then '-' :: Nat.toDigits 10 i.natAbs else Nat.toDigits 10 i.toNat

/-- Conversion `%s` of `printf` applied to `argv[i]`; the C library prints
`(null)` for a null pointer, which is what `argv[argc]` holds. -/
def argv_s (argv : List (List Char)) (i : Nat) : List Char :=
  argv.getD i "(null)".toList

/-- The usage text printed by the first `printf` of `main`. -/
def usage_text (prog : List Char) : List Char :=
  prog ++ " device rate\n\nSet baud rate for a serial device.\nFor ".toList
    ++ "instance:\n    ".toList ++ prog ++ " /dev/ttyACM0 14400\n".toList

/-- The text printed by the second `printf` of `main`. -/
def success_text (dev : List Char) (rate : Int) : List Char :=
  "Set ".toList ++ dev ++ " to ".toList ++ fmt_d rate ++ " successfully.\n".toList

/-! ## The program -/

/-- The function `main` of `baud-switcher.c`.  `argv` holds the `argc`
argument strings, `tio0` is the indeterminate initial content of the automatic
variable `tio`.  Returns the value returned by `main` and the final process
state. -/
def main {σ : Type} (H : Host σ) (argv : List (List Char)) (tio0 : termios2)
    (p : Proc σ) : Int × Proc σ :=
  if argv.length ≠ 3 then
    (-1, c_printf (usage_text (argv_s argv 0)) p)
  else
    let o := c_open H (argv_s argv 1) O_RDONLY p
    let fd := o.1
    let rate := atoi (argv_s argv 2)
    let g := ioctl_TCGETS2 H fd tio0 o.2
    let tio := g.1.2
    let tio := { tio with c_cflag := tio.c_cflag &&& toUnsigned (int_not CBAUD) }
    let tio := { tio with c_cflag := tio.c_cflag ||| BOTHER }
    let tio := { tio with c_ispeed := toUnsigned rate }
    let tio := { tio with c_ospeed := toUnsigned rate }
    let s := ioctl_TCSETS2 H fd tio g.2
    let r := s.1
    let c := c_close H fd s.2
    if r = 0 then
      (0, c_printf (success_text (argv_s argv 1) rate) c.2)
    else
      (0, perror H "ioctl".toList c.2)

/-! ## Observations on a trace -/

/-- The records handed to the apply request `TCSETS2`, in the order of the trace. -/
def applied (tr : List Event) : List termios2 :=
  tr.filterMap fun e =>
    match e.call with
    | Syscall.ioctl_TCSETS2 _ t => some t
    | _ => none

/-- The outcomes of the query request `TCGETS2`, in the order of the trace: the
record the host wrote, or nothing. -/
def queried (tr : List Event) : List (Option termios2) :=
  tr.filterMap fun e =>
    match e.call with
    | Syscall.ioctl_TCGETS2 _ q => some q
    | _ => none

/-- The handles closed, in the order of the trace. -/
def closed (tr : List Event) : List Int :=
  tr.filterMap fun e =>
    match e.call with
    | Syscall.sys_close fd => some fd
    | _ => none

/-- The record `tio` as `main` leaves it before the apply request, given its
content `t` after the query and the parsed rate. -/
def mutated (t : termios2) (rate : Int) : termios2 :=
  { t with c_cflag := (t.c_cflag &&& toUnsigned (int_not CBAUD)) ||| BOTHER,
           c_ispeed := toUnsigned rate, c_ospeed := toUnsigned rate }

/-- Following the words of the specification for a non-numeric rate: after
optional white space and an optional sign, the text does not start with a
decimal digit. -/
def non_numeric (s : List Char) : Bool :=
  match s.dropWhile isspace with
  | [] => true
  | c :: r =>
    if c = '-' ∨ c = '+' then
      match r with
      | [] => true
      | c2 :: _ => !isdigit c2
    else !isdigit c

/-! ## Sample hosts -/

/-- Message table of the sample hosts (the texts of the C library). -/
def sample_strerror (e : Int) : List Char :=
  if e = EINTR then "Interrupted system call".toList
  else if e = EBADF then "Bad file descriptor".toList
  else if e = ENOTTY then "Inappropriate ioctl for device".toList
  else "Unknown error".toList

/-- Line settings of a sample serial port at 9600 baud. -/
def sample_tio : termios2 :=
  { c_iflag := 0o2400, c_oflag := 5, c_cflag := 0o2275, c_lflag := 0o105073, c_line := 0,
    c_cc := [3, 28, 127, 21, 4, 0, 1, 0, 17, 19, 26, 0, 18, 15, 23, 22, 0, 0, 0],
    c_ispeed := 9600, c_ospeed := 9600 }

/-- A record of zeros, standing for the initial content of `tio`. -/
def zero_tio : termios2 :=
  { c_iflag := 0, c_oflag := 0, c_cflag := 0, c_lflag := 0, c_line := 0, c_cc := [],
    c_ispeed := 0, c_ospeed := 0 }

/-- A host whose device accepts every request: handle 3, settings `sample_tio`. -/
def accepting_host : Host Unit :=
  { sys_open := fun _ _ _ => (⟨3, none⟩, ()),
    tcgets2 := fun _ _ => ((⟨0, none⟩, some sample_tio), ()),
    tcsets2 := fun _ _ _ => (⟨0, none⟩, ()),
    sys_close := fun _ _ => (⟨0, none⟩, ()),
    strerror := sample_strerror }

/-- A host whose file is no terminal and whose `close` is interrupted: both
`ioctl` requests fail with `ENOTTY`, then `close` fails with `EINTR`. -/
def interrupted_host : Host Unit :=
  { sys_open := fun _ _ _ => (⟨3, none⟩, ()),
    tcgets2 := fun _ _ => ((⟨-1, some ENOTTY⟩, none), ()),
    tcsets2 := fun _ _ _ => (⟨-1, some ENOTTY⟩, ()),
    sys_close := fun _ _ => (⟨-1, some EINTR⟩, ()),
    strerror := sample_strerror }

/-- The sample command line `baud-switcher /dev/ttyACM0 14400`. -/
def sample_argv : List (List Char) :=
  ["baud-switcher".toList, "/dev/ttyACM0".toList, "14400".toList]

/-! ## Shared lemmas -/

/-- With three argument strings `main` takes the device path: its body with
the argument test resolved and the four assignments to `tio` gathered. -/
theorem main_eq {σ : Type} (H : Host σ) (a0 d s : List Char) (tio0 : termios2) (p : Proc σ) :
    main H [a0, d, s] tio0 p =
      if (ioctl_TCSETS2 H (c_open H d O_RDONLY p).1
            (mutated (ioctl_TCGETS2 H (c_open H d O_RDONLY p).1 tio0 (c_open H d O_RDONLY p).2).1.2
              (atoi s))
            (ioctl_TCGETS2 H (c_open H d O_RDONLY p).1 tio0 (c_open H d O_RDONLY p).2).2).1 = 0
      then (0, c_printf (success_text d (atoi s))
            (c_close H (c_open H d O_RDONLY p).1
              (ioctl_TCSETS2 H (c_open H d O_RDONLY p).1
                (mutated
                  (ioctl_TCGETS2 H (c_open H d O_RDONLY p).1 tio0 (c_open H d O_RDONLY p).2).1.2
                  (atoi s))
                (ioctl_TCGETS2 H (c_open H d O_RDONLY p).1 tio0
                  (c_open H d O_RDONLY p).2).2).2).2)
      else (0, perror H "ioctl".toList
            (c_close H (c_open H d O_RDONLY p).1
              (ioctl_TCSETS2 H (c_open H d O_RDONLY p).1
                (mutated
                  (ioctl_TCGETS2 H (c_open H d O_RDONLY p).1 tio0 (c_open H d O_RDONLY p).2).1.2
                  (atoi s))
                (ioctl_TCGETS2 H (c_open H d O_RDONLY p).1 tio0
                  (c_open H d O_RDONLY p).2).2).2).2) := by
  rfl

/-- The run of `main` on three argument strings, step by step: the four device
operations with the values the host returned, the exit status and the two
output streams. -/
theorem main_run {σ : Type} (H : Host σ) (k : σ) (a0 d s : List Char) (tio0 : termios2) :
    ∃ (fd rg rs rc e : Int) (q : Option termios2),
      fd = (H.sys_open k d O_RDONLY).1.ret ∧
      (main H [a0, d, s] tio0 (Proc.init k)).2.trace =
        [⟨Syscall.sys_open d O_RDONLY, fd⟩,
         ⟨Syscall.ioctl_TCGETS2 fd q, rg⟩,
         ⟨Syscall.ioctl_TCSETS2 fd (mutated (q.getD tio0) (atoi s)), rs⟩,
         ⟨Syscall.sys_close fd, rc⟩] ∧
      (main H [a0, d, s] tio0 (Proc.init k)).1 = 0 ∧
      (main H [a0, d, s] tio0 (Proc.init k)).2.stdout =
        (if rs = 0 then success_text d (atoi s) else []) ∧
      (main H [a0, d, s] tio0 (Proc.init k)).2.stderr =
        (if rs = 0 then [] else "ioctl".toList ++ ": ".toList ++ H.strerror e ++ "\n".toList) := by
  rw [main_eq]
  generalize ho : c_open H d O_RDONLY (Proc.init k) = o
  generalize hg : ioctl_TCGETS2 H o.1 tio0 o.2 = g
  generalize ha : ioctl_TCSETS2 H o.1 (mutated g.1.2 (atoi s)) g.2 = a
  generalize hc : c_close H o.1 a.2 = c
  refine ⟨o.1, g.1.1, a.1, c.1, c.2.errno, (H.tcgets2 o.2.host o.1).1.2, ?_⟩
  have hg2 : g.1.2 = ((H.tcgets2 o.2.host o.1).1.2).getD tio0 := by rw [← hg]; rfl
  have tc : c.2.trace = a.2.trace ++ [⟨Syscall.sys_close o.1, c.1⟩] := by rw [← hc]; rfl
  have ta : a.2.trace = g.2.trace ++
      [⟨Syscall.ioctl_TCSETS2 o.1 (mutated g.1.2 (atoi s)), a.1⟩] := by rw [← ha]; rfl
  have tg : g.2.trace = o.2.trace ++
      [⟨Syscall.ioctl_TCGETS2 o.1 (H.tcgets2 o.2.host o.1).1.2, g.1.1⟩] := by rw [← hg]; rfl
  have t0 : o.2.trace = [⟨Syscall.sys_open d O_RDONLY, o.1⟩] := by rw [← ho]; rfl
  have fo : o.1 = (H.sys_open k d O_RDONLY).1.ret := by rw [← ho]; rfl
  have so : c.2.stdout = [] := by rw [← hc, ← ha, ← hg, ← ho]; rfl
  have se : c.2.stderr = [] := by rw [← hc, ← ha, ← hg, ← ho]; rfl
  refine ⟨fo, ?_⟩
  by_cases h : a.1 = 0
  · simp only [h, if_true, c_printf, perror, tc, ta, tg, t0, so, se, hg2]
    simp
  · simp only [h, if_false, c_printf, perror, tc, ta, tg, t0, so, se, hg2]
    simp

/-- The mask `(unsigned) ~CBAUD` is the 32-bit complement of `CBAUD`. -/
theorem mask_eq : toUnsigned (int_not CBAUD) = (2 ^ 32 - 1) ^^^ CBAUD := by decide

/-- The mask `(unsigned) ~CBAUD` has no bit in common with `CBAUD`. -/
theorem mask_and_CBAUD : toUnsigned (int_not CBAUD) &&& CBAUD = 0 := by decide

/-- The two assignments to `c_cflag` leave `BOTHER` as the content of the
baud-selector bits. -/
theorem cflag_and_CBAUD (c : Nat) :
    ((c &&& toUnsigned (int_not CBAUD)) ||| BOTHER) &&& CBAUD = BOTHER := by
  have h : BOTHER &&& CBAUD = BOTHER := by decide
  rw [Nat.and_distrib_right, Nat.and_assoc, mask_and_CBAUD, h]
  simp

/-- A bit of `c_cflag` outside `CBAUD | BOTHER` survives the two assignments,
for a 32-bit value. -/
theorem cflag_testBit (c : Nat) (hc : c < 2 ^ 32) (i : Nat)
    (hi : (CBAUD ||| BOTHER).testBit i = false) :
    (((c &&& toUnsigned (int_not CBAUD)) ||| BOTHER)).testBit i = c.testBit i := by
  rw [Nat.testBit_or] at hi
  have h1 : CBAUD.testBit i = false := by
    cases h : CBAUD.testBit i <;> simp_all
  have h2 : BOTHER.testBit i = false := by
    cases h : BOTHER.testBit i <;> simp_all
  rw [Nat.testBit_or, Nat.testBit_and, mask_eq, Nat.testBit_xor, Nat.testBit_two_pow_sub_one,
    h1, h2]
  by_cases h : i < 32
  · simp [h]
  · have h3 : c.testBit i = false := by
      apply Nat.testBit_lt_two_pow
      calc c < 2 ^ 32 := hc
        _ ≤ 2 ^ i := Nat.pow_le_pow_right (by decide) (by omega)
    simp [h, h3]

/-- A decimal digit character is a digit, carries its value, is no white space
and no sign. -/
theorem digitChar_facts (m : Nat) (hm : m < 10) :
    isdigit (Nat.digitChar m) = true ∧ (Nat.digitChar m).toNat - 48 = m ∧
      isspace (Nat.digitChar m) = false ∧ Nat.digitChar m ≠ '-' ∧ Nat.digitChar m ≠ '+' := by
  interval_cases m <;> decide

/-- Reading back the digits written by the digit loop of `%d`: the loop
prepends the digits of `n` to `ds`, and the digit scan of `strtol` consumes
them, shifting the accumulator. -/
theorem strtol_digits_toDigitsCore (fuel : Nat) :
    ∀ (n : Nat) (ds : List Char), n < fuel →
      ∃ e : Nat, ∀ acc : Nat,
        strtol_digits acc (Nat.toDigitsCore 10 fuel n ds) = strtol_digits (acc * 10 ^ e + n) ds := by
  induction fuel with
  | zero => intro n ds h; omega
  | succ f ih =>
    intro n ds h
    have hd := digitChar_facts (n % 10) (Nat.mod_lt _ (by decide))
    by_cases h0 : n / 10 = 0
    · refine ⟨1, fun acc => ?_⟩
      have hn : n % 10 = n := Nat.mod_eq_of_lt (by omega)
      rw [hn] at hd
      simp only [Nat.toDigitsCore, h0, if_true, strtol_digits, hd.1, hd.2.1, pow_one, hn]
    · obtain ⟨e, he⟩ := ih (n / 10) (Nat.digitChar (n % 10) :: ds) (by omega)
      refine ⟨e + 1, fun acc => ?_⟩
      simp only [Nat.toDigitsCore, h0, if_false]
      rw [he acc]
      simp only [strtol_digits, hd.1, hd.2.1, if_true]
      congr 1
      have := Nat.div_add_mod n 10
      rw [pow_succ]
      nlinarith [Nat.div_add_mod n 10]

/-- The text written by the digit loop of `%d` starts with a digit. -/
theorem toDigitsCore_head (fuel : Nat) :
    ∀ (n : Nat) (ds : List Char), n < fuel →
      ∃ (m : Nat) (r : List Char), m < 10 ∧ Nat.toDigitsCore 10 fuel n ds = Nat.digitChar m :: r := by
  induction fuel with
  | zero => intro n ds h; omega
  | succ f ih =>
    intro n ds h
    by_cases h0 : n / 10 = 0
    · exact ⟨n % 10, ds, Nat.mod_lt _ (by decide), by simp [Nat.toDigitsCore, h0]⟩
    · obtain ⟨m, r, hm, hr⟩ := ih (n / 10) (Nat.digitChar (n % 10) :: ds) (by omega)
      exact ⟨m, r, hm, by simp [Nat.toDigitsCore, h0, hr]⟩

/-- Round trip: `strtol` reads the decimal text of `R` back as `R`, below
`LONG_MAX`. -/
theorem strtol_toDigits (R : Nat) (hR : (R : Int) ≤ LONG_MAX) :
    strtol (Nat.toDigits 10 R) = R := by
  obtain ⟨m, r, hm, hr⟩ := toDigitsCore_head (R + 1) R [] (by omega)
  obtain ⟨e, he⟩ := strtol_digits_toDigitsCore (R + 1) R [] (by omega)
  have hd := digitChar_facts m hm
  have hv : strtol_digits 0 (Nat.toDigits 10 R) = R := by
    have := he 0
    simpa [Nat.toDigits, strtol_digits] using this
  have hs : skip_space (Nat.toDigits 10 R) = Nat.toDigits 10 R := by
    simp only [Nat.toDigits, hr, skip_space, hd.2.2.1]
    simp
  unfold strtol
  rw [hs]
  have hr2 : Nat.toDigits 10 R = Nat.digitChar m :: r := hr
  rw [hr2]
  simp only [hd.2.2.2.1, hd.2.2.2.2, if_false]
  rw [← hr2, hv]
  exact min_eq_right hR

/-- Round trip: `atoi` reads the decimal text of `R` back as `R`, for `R` in
the non-negative range of `int`. -/
theorem atoi_toDigits (R : Nat) (hR : R ≤ 2 ^ 31 - 1) : atoi (Nat.toDigits 10 R) = R := by
  have h31 : R < 2147483648 := by omega
  have h2 : (R : Int) < 2147483648 := by exact_mod_cast h31
  have h1 : (R : Int) ≤ LONG_MAX := by
    unfold LONG_MAX
    norm_num
    omega
  unfold atoi
  rw [strtol_toDigits R h1]
  unfold toInt32
  norm_num
  omega

/-- Skipping white space is dropping the longest run of `isspace` characters. -/
theorem skip_space_eq (s : List Char) : skip_space s = s.dropWhile isspace := by
  induction s with
  | nil => rfl
  | cons c cs ih =>
    by_cases h : isspace c = true
    · simp [skip_space, List.dropWhile, h, ih]
    · simp [skip_space, List.dropWhile, h]

/-- The digit scan stops at once on a text that does not start with a digit. -/
theorem strtol_digits_stop (acc : Nat) (r : List Char)
    (h : (match r with | [] => true | c :: _ => !isdigit c) = true) :
    strtol_digits acc r = acc := by
  cases r with
  | nil => rfl
  | cons c cs =>
    have hc : isdigit c = false := by simpa using h
    simp [strtol_digits, hc]

/-- A non-numeric text is parsed as `0`. -/
theorem atoi_non_numeric (s : List Char) (h : non_numeric s = true) : atoi s = 0 := by
  have h0 : toInt32 0 = 0 := by decide
  unfold atoi strtol
  rw [skip_space_eq]
  unfold non_numeric at h
  cases hs : s.dropWhile isspace with
  | nil => simpa using h0
  | cons c r =>
    rw [hs] at h
    simp only
    by_cases h1 : c = '-'
    · have hr := strtol_digits_stop 0 r (by simpa [h1] using h)
      simp only [h1, if_true, hr]
      decide
    · by_cases h2 : c = '+'
      · have hr := strtol_digits_stop 0 r (by simpa [h1, h2] using h)
        have h3 : ('+' : Char) ≠ '-' := by decide
        simp only [h2, h3, if_true, if_false, hr]
        decide
      · have hr := strtol_digits_stop 0 (c :: r) (by simpa [h1, h2] using h)
        simp only [h1, h2, if_false, hr]
        decide

/-! ## The claims -/

/-- C1: whatever the control flags `c` held before, the value
`(c & ~CBAUD) | BOTHER` has the baud-selector bits equal to `BOTHER`; and in
every run on two arguments the single record handed to the apply request has
control flags of that form, computed from the content of `tio` after the
query, hence with `c_cflag & CBAUD = BOTHER`. -/
theorem C1_custom_rate_bits {σ : Type} (H : Host σ) (k : σ) (a0 d s : List Char)
    (tio0 : termios2) :
    (∀ c : Nat, ((c &&& toUnsigned (int_not CBAUD)) ||| BOTHER) &&& CBAUD = BOTHER) ∧
    ∃ (q : Option termios2) (t : termios2),
      queried (main H [a0, d, s] tio0 (Proc.init k)).2.trace = [q] ∧
      applied (main H [a0, d, s] tio0 (Proc.init k)).2.trace = [t] ∧
      t.c_cflag = (((q.getD tio0).c_cflag &&& toUnsigned (int_not CBAUD)) ||| BOTHER) ∧
      t.c_cflag &&& CBAUD = BOTHER := by
  refine ⟨cflag_and_CBAUD, ?_⟩
  obtain ⟨fd, rg, rs, rc, e, q, -, ht, -, -, -⟩ := main_run H k a0 d s tio0
  refine ⟨q, mutated (q.getD tio0) (atoi s), ?_, ?_, rfl, cflag_and_CBAUD _⟩
  · rw [ht]; rfl
  · rw [ht]; rfl

/-- C2: when the query returned the record `t` (a 32-bit `c_cflag`), the single
record handed to the apply request has the same `c_iflag`, `c_oflag`,
`c_lflag`, `c_line` and `c_cc` as `t`, and every bit of its `c_cflag` either
lies in `CBAUD | BOTHER` or equals the same bit of `t`. -/
theorem C2_frame {σ : Type} (H : Host σ) (k : σ) (a0 d s : List Char)
    (tio0 t : termios2)
    (hq : queried (main H [a0, d, s] tio0 (Proc.init k)).2.trace = [some t])
    (hw : t.c_cflag < 2 ^ 32) :
    ∃ u : termios2,
      applied (main H [a0, d, s] tio0 (Proc.init k)).2.trace = [u] ∧
      u.c_iflag = t.c_iflag ∧ u.c_oflag = t.c_oflag ∧ u.c_lflag = t.c_lflag ∧
      u.c_line = t.c_line ∧ u.c_cc = t.c_cc ∧
      ∀ i : Nat, (CBAUD ||| BOTHER).testBit i = true ∨
        u.c_cflag.testBit i = t.c_cflag.testBit i := by
  obtain ⟨fd, rg, rs, rc, e, q, -, ht, -, -, -⟩ := main_run H k a0 d s tio0
  rw [ht] at hq ⊢
  have hq2 : q = some t := by
    have : queried [⟨Syscall.sys_open d O_RDONLY, fd⟩, ⟨Syscall.ioctl_TCGETS2 fd q, rg⟩,
        ⟨Syscall.ioctl_TCSETS2 fd (mutated (q.getD tio0) (atoi s)), rs⟩,
        ⟨Syscall.sys_close fd, rc⟩] = [q] := rfl
    rw [this] at hq
    simpa using hq
  subst hq2
  refine ⟨mutated t (atoi s), rfl, rfl, rfl, rfl, rfl, rfl, fun i => ?_⟩
  by_cases hi : (CBAUD ||| BOTHER).testBit i = true
  · exact Or.inl hi
  · exact Or.inr (cflag_testBit t.c_cflag hw i (by simpa using hi))

/-- C2, at the sample port. -/
theorem C2_frame_witness :
    queried (main accepting_host sample_argv zero_tio (Proc.init ())).2.trace
        = [some sample_tio] ∧
      sample_tio.c_cflag < 2 ^ 32 ∧
      ∃ u : termios2,
        applied (main accepting_host sample_argv zero_tio (Proc.init ())).2.trace = [u] ∧
        u.c_iflag = sample_tio.c_iflag ∧ u.c_oflag = sample_tio.c_oflag ∧
        u.c_lflag = sample_tio.c_lflag ∧ u.c_line = sample_tio.c_line ∧
        u.c_cc = sample_tio.c_cc ∧
        ∀ i : Nat, (CBAUD ||| BOTHER).testBit i = true ∨
          u.c_cflag.testBit i = sample_tio.c_cflag.testBit i :=
  ⟨by rfl, by decide,
    C2_frame accepting_host () "baud-switcher".toList "/dev/ttyACM0".toList "14400".toList
      zero_tio sample_tio (by rfl) (by decide)⟩

/-- C3: when the rate argument is the decimal text of `R` with
`0 ≤ R ≤ 2^31 - 1`, the single record handed to the apply request has
`c_ispeed = R` and `c_ospeed = R`. -/
theorem C3_speed_fields {σ : Type} (H : Host σ) (k : σ) (a0 d : List Char)
    (tio0 : termios2) (R : Nat) (hR : R ≤ 2 ^ 31 - 1) :
    ∃ t : termios2,
      applied (main H [a0, d, Nat.toDigits 10 R] tio0 (Proc.init k)).2.trace = [t] ∧
      t.c_ispeed = R ∧ t.c_ospeed = R := by
  obtain ⟨fd, rg, rs, rc, e, q, -, ht, -, -, -⟩ := main_run H k a0 d (Nat.toDigits 10 R) tio0
  have hu : toUnsigned (R : Int) = R := by
    unfold toUnsigned
    have h31 : R < 2147483648 := by omega
    have h2 : (R : Int) < 2147483648 := by exact_mod_cast h31
    norm_num
    omega
  refine ⟨mutated (q.getD tio0) (atoi (Nat.toDigits 10 R)), by rw [ht]; rfl, ?_, ?_⟩
  · show toUnsigned (atoi (Nat.toDigits 10 R)) = R
    rw [atoi_toDigits R hR, hu]
  · show toUnsigned (atoi (Nat.toDigits 10 R)) = R
    rw [atoi_toDigits R hR, hu]

/-- C3, at the rate 14400. -/
theorem C3_speed_fields_witness :
    14400 ≤ 2 ^ 31 - 1 ∧ Nat.toDigits 10 14400 = "14400".toList ∧
      ∃ t : termios2,
        applied (main accepting_host
          ["baud-switcher".toList, "/dev/ttyACM0".toList, Nat.toDigits 10 14400] zero_tio
          (Proc.init ())).2.trace = [t] ∧
        t.c_ispeed = 14400 ∧ t.c_ospeed = 14400 :=
  ⟨by decide, by decide,
    C3_speed_fields accepting_host () "baud-switcher".toList "/dev/ttyACM0".toList zero_tio
      14400 (by decide)⟩

/-- C4: when the number of argument strings (program name included) is not
three, `main` returns `-1`, standard output holds the usage text and nothing
else is written, and the trace of device operations is empty. -/
theorem C4_usage {σ : Type} (H : Host σ) (k : σ) (argv : List (List Char))
    (tio0 : termios2) (h : argv.length ≠ 3) :
    (main H argv tio0 (Proc.init k)).1 = -1 ∧
    (main H argv tio0 (Proc.init k)).2.trace = [] ∧
    (main H argv tio0 (Proc.init k)).2.stdout =
      argv_s argv 0 ++ " device rate\n\nSet baud rate for a serial device.\nFor instance:\n    ".toList
        ++ argv_s argv 0 ++ " /dev/ttyACM0 14400\n".toList ∧
    (main H argv tio0 (Proc.init k)).2.stderr = [] ∧
    (main H argv tio0 (Proc.init k)).2.host = k := by
  simp [main, h, c_printf, Proc.init, usage_text]

/-- C4, with the rate argument missing. -/
theorem C4_usage_witness :
    ["baud-switcher".toList, "/dev/ttyACM0".toList].length ≠ 3 ∧
    (main accepting_host ["baud-switcher".toList, "/dev/ttyACM0".toList] zero_tio
      (Proc.init ())).1 = -1 ∧
    (main accepting_host ["baud-switcher".toList, "/dev/ttyACM0".toList] zero_tio
      (Proc.init ())).2.trace = [] :=
  ⟨by decide,
    (C4_usage accepting_host () ["baud-switcher".toList, "/dev/ttyACM0".toList] zero_tio
      (by decide)).1,
    (C4_usage accepting_host () ["baud-switcher".toList, "/dev/ttyACM0".toList] zero_tio
      (by decide)).2.1⟩

/-- C5: in a run on two arguments `d`, `s` whose apply request returned `0`,
standard output is exactly the line `Set d to N successfully.` with `N` the
decimal rendering of `atoi(s)`, and nothing is written to standard error. -/
theorem C5_success_line {σ : Type} (H : Host σ) (k : σ) (a0 d s : List Char)
    (tio0 : termios2)
    (h : ∃ (fd : Int) (t : termios2),
      (⟨Syscall.ioctl_TCSETS2 fd t, 0⟩ : Event) ∈ (main H [a0, d, s] tio0 (Proc.init k)).2.trace) :
    (main H [a0, d, s] tio0 (Proc.init k)).2.stdout =
      "Set ".toList ++ d ++ " to ".toList ++ fmt_d (atoi s) ++ " successfully.\n".toList ∧
    (main H [a0, d, s] tio0 (Proc.init k)).2.stderr = [] := by
  obtain ⟨fd, rg, rs, rc, e, q, -, ht, -, ho, he⟩ := main_run H k a0 d s tio0
  obtain ⟨fd1, t1, hm⟩ := h
  rw [ht] at hm
  have hrs : rs = 0 := by
    simp only [List.mem_cons, Event.mk.injEq, List.mem_singleton, List.mem_nil_iff] at hm
    rcases hm with hm | hm | hm | hm | hm
    · exact absurd hm.1 (by simp)
    · exact absurd hm.1 (by simp)
    · exact hm.2.symm
    · exact absurd hm.1 (by simp)
    · exact absurd hm id
  rw [ho, he]
  simp [hrs, success_text]

/-- C5, at the sample command line on an accepting device: the line is
`Set /dev/ttyACM0 to 14400 successfully.` -/
theorem C5_success_line_witness :
    (∃ (fd : Int) (t : termios2), (⟨Syscall.ioctl_TCSETS2 fd t, 0⟩ : Event) ∈
      (main accepting_host ["baud-switcher".toList, "/dev/ttyACM0".toList, "14400".toList]
        zero_tio (Proc.init ())).2.trace) ∧
    (main accepting_host ["baud-switcher".toList, "/dev/ttyACM0".toList, "14400".toList]
        zero_tio (Proc.init ())).2.stdout = "Set /dev/ttyACM0 to 14400 successfully.\n".toList ∧
    (main accepting_host ["baud-switcher".toList, "/dev/ttyACM0".toList, "14400".toList]
        zero_tio (Proc.init ())).2.stderr = [] :=
  have h : ∃ (fd : Int) (t : termios2), (⟨Syscall.ioctl_TCSETS2 fd t, 0⟩ : Event) ∈
      (main accepting_host ["baud-switcher".toList, "/dev/ttyACM0".toList, "14400".toList]
        zero_tio (Proc.init ())).2.trace :=
    ⟨3, mutated sample_tio 14400, by decide⟩
  ⟨h,
    (C5_success_line accepting_host () "baud-switcher".toList "/dev/ttyACM0".toList
      "14400".toList zero_tio h).1.trans (by decide),
    (C5_success_line accepting_host () "baud-switcher".toList "/dev/ttyACM0".toList
      "14400".toList zero_tio h).2⟩

/-- C6: a run in which the apply request fails with `ENOTTY` and the following
`close` fails with `EINTR`.  Nothing is printed on standard output and one line
labelled `ioctl` is printed on standard error, but it carries the message of
the error set by `close`, not the message of the error set by the apply
request. -/
theorem C6_perror_reports_close_error :
    (main interrupted_host sample_argv zero_tio (Proc.init ())).2.trace =
      [⟨Syscall.sys_open "/dev/ttyACM0".toList O_RDONLY, 3⟩,
       ⟨Syscall.ioctl_TCGETS2 3 none, -1⟩,
       ⟨Syscall.ioctl_TCSETS2 3 (mutated zero_tio 14400), -1⟩,
       ⟨Syscall.sys_close 3, -1⟩] ∧
    (interrupted_host.tcsets2 () 3 (mutated zero_tio 14400)).1 = ⟨-1, some ENOTTY⟩ ∧
    (interrupted_host.sys_close () 3).1 = ⟨-1, some EINTR⟩ ∧
    (main interrupted_host sample_argv zero_tio (Proc.init ())).2.stdout = [] ∧
    (main interrupted_host sample_argv zero_tio (Proc.init ())).2.stderr =
      "ioctl: Interrupted system call\n".toList ∧
    (main interrupted_host sample_argv zero_tio (Proc.init ())).2.stderr =
      "ioctl: ".toList ++ interrupted_host.strerror EINTR ++ "\n".toList ∧
    (main interrupted_host sample_argv zero_tio (Proc.init ())).2.stderr ≠
      "ioctl: ".toList ++ interrupted_host.strerror ENOTTY ++ "\n".toList := by
  refine ⟨by decide, by decide, by decide, by decide, by decide, by decide, by decide⟩

/-- C7: in every run on two arguments, whatever the apply request returns,
the trace holds exactly one close, it closes the handle returned by `open`,
and it comes after the apply request. -/
theorem C7_close_once {σ : Type} (H : Host σ) (k : σ) (a0 d s : List Char)
    (tio0 : termios2) :
    ∃ (fd rs rc : Int) (t : termios2) (pre post : List Event),
      (main H [a0, d, s] tio0 (Proc.init k)).2.trace =
        pre ++ ⟨Syscall.ioctl_TCSETS2 fd t, rs⟩ :: post ∧
      (⟨Syscall.sys_open d O_RDONLY, fd⟩ : Event) ∈ pre ∧
      fd = (H.sys_open k d O_RDONLY).1.ret ∧
      closed (main H [a0, d, s] tio0 (Proc.init k)).2.trace = [fd] ∧
      closed pre = [] ∧
      post = [⟨Syscall.sys_close fd, rc⟩] := by
  obtain ⟨fd, rg, rs, rc, e, q, hfd, ht, -, -, -⟩ := main_run H k a0 d s tio0
  refine ⟨fd, rs, rc, mutated (q.getD tio0) (atoi s),
    [⟨Syscall.sys_open d O_RDONLY, fd⟩, ⟨Syscall.ioctl_TCGETS2 fd q, rg⟩],
    [⟨Syscall.sys_close fd, rc⟩], ?_, ?_, hfd, ?_, rfl, rfl⟩
  · rw [ht]; rfl
  · simp
  · rw [ht]; rfl

/-- C8: when the rate argument `s` is non-numeric, `atoi` gives `0` and the run
is the run for the rate text `0`: exit status `0` (not the usage path), and
the trace is open, query, apply with both speed fields `0`, close, on the
handle returned by `open`. -/
theorem C8_non_numeric_rate {σ : Type} (H : Host σ) (k : σ) (a0 d s : List Char)
    (tio0 : termios2) (h : non_numeric s = true) :
    atoi s = 0 ∧
    main H [a0, d, s] tio0 (Proc.init k) = main H [a0, d, "0".toList] tio0 (Proc.init k) ∧
    (main H [a0, d, s] tio0 (Proc.init k)).1 = 0 ∧
    ∃ (fd rg rs rc : Int) (q : Option termios2) (t : termios2),
      (main H [a0, d, s] tio0 (Proc.init k)).2.trace =
        [⟨Syscall.sys_open d O_RDONLY, fd⟩,
         ⟨Syscall.ioctl_TCGETS2 fd q, rg⟩,
         ⟨Syscall.ioctl_TCSETS2 fd t, rs⟩,
         ⟨Syscall.sys_close fd, rc⟩] ∧
      t.c_ispeed = 0 ∧ t.c_ospeed = 0 := by
  have h0 : atoi s = 0 := atoi_non_numeric s h
  have h1 : atoi "0".toList = 0 := by decide
  obtain ⟨fd, rg, rs, rc, e, q, -, ht, hx, -, -⟩ := main_run H k a0 d s tio0
  refine ⟨h0, ?_, hx, fd, rg, rs, rc, q, mutated (q.getD tio0) (atoi s), ht, ?_, ?_⟩
  · rw [main_eq, main_eq, h0, h1]
  · show toUnsigned (atoi s) = 0
    rw [h0]; decide
  · show toUnsigned (atoi s) = 0
    rw [h0]; decide

/-- C8, at the rate text `fast`. -/
theorem C8_non_numeric_rate_witness :
    non_numeric "fast".toList = true ∧ atoi "fast".toList = 0 ∧
    (main accepting_host ["baud-switcher".toList, "/dev/ttyACM0".toList, "fast".toList]
        zero_tio (Proc.init ())).1 = 0 :=
  ⟨by decide,
    (C8_non_numeric_rate accepting_host () "baud-switcher".toList "/dev/ttyACM0".toList
      "fast".toList zero_tio (by decide)).1,
    (C8_non_numeric_rate accepting_host () "baud-switcher".toList "/dev/ttyACM0".toList
      "fast".toList zero_tio (by decide)).2.2.1⟩

/-- C9: the value returned by `main` is `0` when there are three argument
strings and `-1` otherwise, for every host (whatever `open`, the query and the
apply request return); so it is non-zero exactly when `argc` is not `3`. -/
theorem C9_exit_status {σ : Type} (H : Host σ) (k : σ) (argv : List (List Char))
    (tio0 : termios2) :
    (main H argv tio0 (Proc.init k)).1 = (if argv.length = 3 then 0 else -1) ∧
    ((main H argv tio0 (Proc.init k)).1 ≠ 0 ↔ argv.length ≠ 3) := by
  by_cases h : argv.length = 3
  · obtain ⟨a0, d, s, rfl⟩ := List.length_eq_three.mp h
    obtain ⟨fd, rg, rs, rc, e, q, -, -, hx, -, -⟩ := main_run H k a0 d s tio0
    simp [hx]
  · have hx : (main H argv tio0 (Proc.init k)).1 = -1 := by simp [main, h]
    simp [hx, h]

/-- C10: in every run on two arguments the trace is exactly open (read only),
query, apply, close, each once and in this order, all on the value `open`
returned, whatever that value is (an invalid handle included); and the text
printed is decided by the result of the apply request alone: the success line
on standard output when it is `0`, one line labelled `ioctl` on standard
error otherwise. -/
theorem C10_fixed_sequence {σ : Type} (H : Host σ) (k : σ) (a0 d s : List Char)
    (tio0 : termios2) :
    ∃ (fd rg rs rc e : Int) (q : Option termios2) (t : termios2),
      fd = (H.sys_open k d O_RDONLY).1.ret ∧
      (main H [a0, d, s] tio0 (Proc.init k)).2.trace =
        [⟨Syscall.sys_open d O_RDONLY, fd⟩,
         ⟨Syscall.ioctl_TCGETS2 fd q, rg⟩,
         ⟨Syscall.ioctl_TCSETS2 fd t, rs⟩,
         ⟨Syscall.sys_close fd, rc⟩] ∧
      (main H [a0, d, s] tio0 (Proc.init k)).2.stdout =
        (if rs = 0 then
          "Set ".toList ++ d ++ " to ".toList ++ fmt_d (atoi s) ++ " successfully.\n".toList
         else []) ∧
      (main H [a0, d, s] tio0 (Proc.init k)).2.stderr =
        (if rs = 0 then [] else "ioctl: ".toList ++ H.strerror e ++ "\n".toList) := by
  obtain ⟨fd, rg, rs, rc, e, q, hfd, ht, -, ho, he⟩ := main_run H k a0 d s tio0
  refine ⟨fd, rg, rs, rc, e, q, mutated (q.getD tio0) (atoi s), hfd, ht, ?_, ?_⟩
  · rw [ho]
    by_cases hr : rs = 0 <;> simp [hr, success_text]
  · rw [he]
    by_cases hr : rs = 0 <;> simp [hr]

end BaudSwitcher
